import Mathlib

/-!
Verification development for the StyleGAN-BiGAN repository
(`training/training_loop.py` and `shrink.py`).

The Python sources are shallowly embedded below: pure computations become
Lean functions over `ℕ`/`ℤ`/`ℚ`/`ℝ`, the side-effecting parts of the
training loop become explicit event traces, and the file system touched by
`shrink.py` becomes an association list from paths to images.
-/

namespace StyleGanBiGan

/-! ## Networks and checkpoints (`training_loop.py`, resume / snapshot code)

A `tflib.Network` is modelled by its name together with its trainable
variables (a list of name/value pairs).  `copy_vars_from` replaces the
destination's variables with the source's, keeping the destination object. -/

structure Network where
  name : String
  vars : List (String × ℚ)
deriving Repr, DecidableEq

/-- `dst.copy_vars_from src`: copy all variables of `src` into `dst`. -/
def Network.copy_vars_from (dst src : Network) : Network :=
  { dst with vars := src.vars }

/-- The six networks held by `training_loop` (G, D, Gs, E, D_H, D_J). -/
structure Networks where
  G : Network
  D : Network
  Gs : Network
  E : Network
  D_H : Network
  D_J : Network
deriving Repr, DecidableEq

/-- A network snapshot: `pickle.dump((G, D, Gs, E, D_H, D_J), f)`
(training_loop.py line 411) writes the six networks as a tuple in this
order. -/
def saveSnapshot (n : Networks) :
    Network × Network × Network × Network × Network × Network :=
  (n.G, n.D, n.Gs, n.E, n.D_H, n.D_J)

/-- The resume branch (training_loop.py lines 149-158):
`rG, rD, rGs, rE, rD_H, rD_J = pickle.load(f)` followed by
`G.copy_vars_from(rG)`, ..., `D_J.copy_vars_from(rD_J)` on the freshly
constructed networks. -/
def resumeFrom (fresh : Networks)
    (pkl : Network × Network × Network × Network × Network × Network) :
    Networks :=
  let (rG, rD, rGs, rE, rD_H, rD_J) := pkl
  { G := fresh.G.copy_vars_from rG
    D := fresh.D.copy_vars_from rD
    Gs := fresh.Gs.copy_vars_from rGs
    E := fresh.E.copy_vars_from rE
    D_H := fresh.D_H.copy_vars_from rD_H
    D_J := fresh.D_J.copy_vars_from rD_J }

/-! ## The shrink script (`shrink.py`)

The file system is an association list from path strings to images; an
image is modelled by its dimensions (all `PIL` keeps that the script
observes).  `Image.resize((w, h), ...)` returns an image of exactly the
requested size. -/

structure PILImage where
  width : ℕ
  height : ℕ
deriving Repr, DecidableEq

/-- `im.resize((w, h), Image.ANTIALIAS)`: PIL returns a new image of
exactly the requested size, whatever the original size was. -/
def PILImage.resize (_im : PILImage) (w h : ℕ) : PILImage :=
  { width := w, height := h }

/-- A directory tree: finite map from absolute path to image. -/
abbrev FS := List (String × PILImage)

/-- `new_file = f"{folder}\\{file}"` (shrink.py line 11): the folder path,
a single backslash, and the file name. -/
def new_file (folder file : String) : String :=
  folder ++ "\\" ++ file

/-- Look a path up in the file system (`Image.open`); `none` means the
open raises. -/
def fsOpen (fs : FS) (path : String) : Option PILImage :=
  (fs.find? (fun e => e.1 = path)).map Prod.snd

/-- `im.save(new_file)`: overwrite the entry at `path` in place, leaving
every other entry untouched. -/
def fsSave (fs : FS) (path : String) (im : PILImage) : FS :=
  fs.map (fun e => if e.1 = path then (e.1, im) else e)

/-- One pass of the shrink loop body (shrink.py lines 10-14): build
`new_file`, open it, resize to `(w, h)` and save to the very same
`new_file` path. -/
def shrinkStep (folder : String) (w h : ℕ) (fs : FS) (file : String) :
    Option FS :=
  let path := new_file folder file
  (fsOpen fs path).map (fun im => fsSave fs path (im.resize w h))

/-- The whole shrink loop: `for file in os.listdir(folder): ...` over the
given listing; `none` if any `Image.open` raises. -/
def shrinkFolder (folder : String) (w h : ℕ) (listing : List String)
    (fs : FS) : Option FS :=
  listing.foldlM (shrinkStep folder w h) fs

/-! ## Training ops and the per-minibatch schedule
(`training_loop.py` lines 336-365)

Each `tflib.run([...])` call of the inner loop is one event: the list of
ops it executes together.  A minibatch iteration (one `_repeat_idx` pass)
is a list of such events. -/

inductive Op
  | G_train
  | data_fetch
  | G_reg
  | D_train
  | Gs_update
  | D_reg
deriving Repr, DecidableEq

/-- `rounds = range(0, minibatch_size, minibatch_gpu * num_gpus)`
(line 337); its Python length is `ceil(minibatch_size / step)` for a
positive step and positive size. -/
def numRounds (minibatch_size step : ℕ) : ℕ :=
  (minibatch_size + step - 1) / step

/-- The fast path without gradient accumulation (lines 345-352):
`run([G_train_op, data_fetch_op])`, then `G_reg_op` when due, then
`run([D_train_op, Gs_update_op])`, then `D_reg_op` when due. -/
def fastPath (run_G_reg run_D_reg : Bool) : List (List Op) :=
  [[Op.G_train, Op.data_fetch]]
    ++ (if run_G_reg then [[Op.G_reg]] else [])
    ++ [[Op.D_train, Op.Gs_update]]
    ++ (if run_D_reg then [[Op.D_reg]] else [])

/-- The slow path with gradient accumulation (lines 355-365): per round
`G_train_op` (plus `G_reg_op` when due), then a single `Gs_update_op`,
then per round `data_fetch_op`, `D_train_op` (plus `D_reg_op` when due). -/
def slowPath (rounds : ℕ) (run_G_reg run_D_reg : Bool) : List (List Op) :=
  (List.replicate rounds
      ([[Op.G_train]] ++ (if run_G_reg then [[Op.G_reg]] else []))).flatten
    ++ [[Op.Gs_update]]
    ++ (List.replicate rounds
      ([[Op.data_fetch]] ++ [[Op.D_train]]
        ++ (if run_D_reg then [[Op.D_reg]] else []))).flatten

/-- The training ops run by one minibatch iteration, following the
`if len(rounds) == 1` dispatch at line 345. -/
def iterationRuns (minibatch_size minibatch_gpu num_gpus : ℕ)
    (run_G_reg run_D_reg : Bool) : List (List Op) :=
  if numRounds minibatch_size (minibatch_gpu * num_gpus) = 1 then
    fastPath run_G_reg run_D_reg
  else
    slowPath (numRounds minibatch_size (minibatch_gpu * num_gpus))
      run_G_reg run_D_reg

/-- `run_G_reg = (lazy_regularization and running_mb_counter % G_reg_interval == 0)`
(line 338). -/
def run_G_reg (lazy_regularization : Bool) (running_mb_counter G_reg_interval : ℕ) :
    Bool :=
  lazy_regularization && running_mb_counter % G_reg_interval == 0

/-- `run_D_reg = (lazy_regularization and running_mb_counter % D_reg_interval == 0)`
(line 340). -/
def run_D_reg (lazy_regularization : Bool) (running_mb_counter D_reg_interval : ℕ) :
    Bool :=
  lazy_regularization && running_mb_counter % D_reg_interval == 0

/-! ## EMA coefficient (`training_loop.py` lines 329-333) -/

/-- `Gs_nimg = G_smoothing_kimg * 1000.0`, capped at
`cur_nimg * G_smoothing_rampup` when the rampup is not `None`
(lines 330-332). -/
noncomputable def Gs_nimg (G_smoothing_kimg : ℝ) (G_smoothing_rampup : Option ℝ)
    (cur_nimg : ℝ) : ℝ :=
  match G_smoothing_rampup with
  | none => G_smoothing_kimg * 1000
  | some rampup => min (G_smoothing_kimg * 1000) (cur_nimg * rampup)

/-- `Gs_beta = 0.5 ** (minibatch_size / max(Gs_nimg, 1e-8))` (line 333). -/
noncomputable def Gs_beta (minibatch_size : ℝ) (G_smoothing_kimg : ℝ)
    (G_smoothing_rampup : Option ℝ) (cur_nimg : ℝ) : ℝ :=
  (0.5 : ℝ) ^
    (minibatch_size / max (Gs_nimg G_smoothing_kimg G_smoothing_rampup cur_nimg)
      (1e-8 : ℝ))

/-! ## Configuration check (`training_loop.py` line 121)

`assert minibatch_size % (num_gpus * minibatch_gpu) == 0` is the first
statement of `training_loop`, before the dataset is loaded, any network is
constructed or any file is written.  Python's `%` raises
`ZeroDivisionError` on a zero divisor, and a false `assert` raises
`AssertionError`. -/

inductive PyError
  | assertionError
  | zeroDivisionError
deriving Repr, DecidableEq

/-- Setup actions of `training_loop` observable before the inner loop. -/
inductive SetupEffect
  | loadDataset
  | constructNetworks
  | writeFile (name : String)
deriving Repr, DecidableEq

/-- The prefix of `training_loop` (lines 121-177): the assertion runs
first; only when it passes does the script load the training set,
construct the networks and write `reals.png` and `fakes_init.png`.  The
result is the list of performed setup effects together with the error, if
any, that terminated the prefix. -/
def trainingLoopPrefix (minibatch_size num_gpus minibatch_gpu : ℕ) :
    List SetupEffect × Option PyError :=
  if num_gpus * minibatch_gpu = 0 then
    ([], some PyError.zeroDivisionError)
  else if minibatch_size % (num_gpus * minibatch_gpu) = 0 then
    ([SetupEffect.loadDataset, SetupEffect.constructNetworks,
      SetupEffect.writeFile "reals.png", SetupEffect.writeFile "fakes_init.png"],
      none)
  else
    ([], some PyError.assertionError)

/-! ## Loop progress (`training_loop.py` lines 321-342, 376-377) -/

/-- The counters advanced by the inner loop: `cur_nimg` and
`running_mb_counter` (lines 321, 324). -/
structure LoopState where
  cur_nimg : ℕ
  running_mb_counter : ℕ
deriving Repr, DecidableEq

/-- One `_repeat_idx` pass of the inner loop advances
`cur_nimg += minibatch_size` and `running_mb_counter += 1`
(lines 341-342). -/
def innerRepeat (minibatch_size : ℕ) (s : LoopState) : LoopState :=
  { cur_nimg := s.cur_nimg + minibatch_size
    running_mb_counter := s.running_mb_counter + 1 }

/-- One pass of the `while not done` body runs the inner loop
`minibatch_repeats` times (line 336). -/
def whilePass (minibatch_size minibatch_repeats : ℕ) (s : LoopState) :
    LoopState :=
  (List.range minibatch_repeats).foldl (fun t _ => innerRepeat minibatch_size t) s

/-- The loop state after `k` passes of the while body, starting from
`cur_nimg = 0`, `running_mb_counter = 0`. -/
def stateAfter (minibatch_size minibatch_repeats k : ℕ) : LoopState :=
  (List.range k).foldl (fun t _ => whilePass minibatch_size minibatch_repeats t)
    { cur_nimg := 0, running_mb_counter := 0 }

/-- `done = (cur_nimg >= total_kimg * 1000) or (abort_fn is not None and abort_fn())`
(line 376), evaluated after pass `k` (`abort` gives the value of the
`abort_fn()` call of pass `k`; `none` models `abort_fn=None`). -/
def doneAfter (minibatch_size minibatch_repeats total_kimg : ℕ)
    (abort : Option (ℕ → Bool)) (k : ℕ) : Bool :=
  decide ((stateAfter minibatch_size minibatch_repeats k).cur_nimg ≥
      total_kimg * 1000)
    || (match abort with
        | none => false
        | some f => f k)

/-! ## Optimizer hyperparameter rescaling and loss assembly
(`training_loop.py` lines 213-219 and 261-287) -/

/-- The optimizer argument dictionary fields touched by the rescaling
loop: `learning_rate`, optional `beta1`/`beta2`, and the
`minibatch_multiplier` entry it installs. -/
structure OptArgs where
  learning_rate : ℝ
  beta1 : Option ℝ
  beta2 : Option ℝ
  minibatch_multiplier : Option ℕ

/-- The body of the rescaling loop (lines 213-219) applied to one
argument dictionary with its regularization interval:
`args['minibatch_multiplier'] = minibatch_size // num_gpus // minibatch_gpu`,
and, when `lazy_regularization` is set,
`mb_ratio = reg_interval / (reg_interval + 1)`,
`args['learning_rate'] *= mb_ratio`, and `beta1`/`beta2 **= mb_ratio`
when present. -/
noncomputable def rescaleOptArgs (lazy_regularization : Bool)
    (minibatch_size num_gpus minibatch_gpu reg_interval : ℕ)
    (args : OptArgs) : OptArgs :=
  let args := { args with
    minibatch_multiplier := some (minibatch_size / num_gpus / minibatch_gpu) }
  if lazy_regularization then
    let mb_ratio : ℝ := (reg_interval : ℝ) / ((reg_interval : ℝ) + 1)
    { args with
      learning_rate := args.learning_rate * mb_ratio
      beta1 := args.beta1.map (fun b => b ^ mb_ratio)
      beta2 := args.beta2.map (fun b => b ^ mb_ratio) }
  else
    args

/-- The scalar loss terms returned by the loss function (the model keeps
one scalar per term; `tf.reduce_mean` of a scalar is itself). -/
structure LossTerms where
  G_E_loss : ℝ
  D_loss : ℝ
  G_reg : Option ℝ
  D_reg : Option ℝ
  E_reg : Option ℝ

/-- What each optimizer has registered after lines 261-287, per GPU.
When `lazy_regularization` is set, `G_reg * G_reg_interval` and
`D_reg * D_reg_interval` go to the standalone `RegG`/`RegD` optimizers
and the main losses stay as returned; otherwise the regularization terms
are folded into the main losses (lines 274-276) and the standalone
optimizers register nothing. -/
structure RegisteredGrads where
  regG : Option ℝ
  regD : Option ℝ
  mainG_E : ℝ
  mainD : ℝ

/-- Gradient registration (lines 261-287). -/
noncomputable def registerGradients (lazy_regularization : Bool)
    (G_reg_interval D_reg_interval : ℕ) (terms : LossTerms) :
    RegisteredGrads :=
  if lazy_regularization then
    { regG := terms.G_reg.map (fun r => r * (G_reg_interval : ℝ))
      regD := terms.D_reg.map (fun r => r * (D_reg_interval : ℝ))
      mainG_E := terms.G_E_loss
      mainD := terms.D_loss }
  else
    { regG := none
      regD := none
      mainG_E := terms.G_E_loss + terms.G_reg.getD 0 + terms.E_reg.getD 0
      mainD := terms.D_loss + terms.D_reg.getD 0 }

/-! ## File writes of the training loop (`training_loop.py` lines
173-177 and 401-415) -/

inductive FileEvent
  | png (name : String)
  | pkl (name : String)
  | metricRun (pklName : String)
deriving Repr, DecidableEq

/-- Python `f'{n:06d}'` for a natural number: decimal digits zero-padded
to width 6. -/
def pad6 (n : ℕ) : String :=
  let s := toString n
  String.mk (List.replicate (6 - s.length) '0') ++ s

/-- What one maintenance tick writes (lines 401-415): a `fakes...png`
grid when `image_snapshot_ticks` is not `None` and the tick is due or
final, and a `network-snapshot-...pkl` (followed by one metric run per
configured metric) when `network_snapshot_ticks` is not `None` and the
tick is due or final.  `done`, `cur_tick` and `cur_nimg` are the values
at that tick. -/
def tickFileEvents (image_snapshot_ticks network_snapshot_ticks : Option ℕ)
    (numMetrics : ℕ) (done : Bool) (cur_tick cur_nimg : ℕ) : List FileEvent :=
  (match image_snapshot_ticks with
    | none => []
    | some iv =>
      if done || cur_tick % iv == 0 then
        [FileEvent.png ("fakes" ++ pad6 (cur_nimg / 1000) ++ ".png")]
      else [])
  ++ (match network_snapshot_ticks with
    | none => []
    | some iv =>
      if done || cur_tick % iv == 0 then
        let pklName := "network-snapshot-" ++ pad6 (cur_nimg / 1000) ++ ".pkl"
        FileEvent.pkl pklName
          :: List.replicate numMetrics (FileEvent.metricRun pklName)
      else [])

/-- All file events of a full `training_loop` run: the setup writes
`reals.png` then `fakes_init.png` (lines 174 and 177), followed by the
events of each maintenance tick in order.  A tick is given as
`(done, cur_tick, cur_nimg)`. -/
def trainingFileEvents (image_snapshot_ticks network_snapshot_ticks : Option ℕ)
    (numMetrics : ℕ) (ticks : List (Bool × ℕ × ℕ)) : List FileEvent :=
  [FileEvent.png "reals.png", FileEvent.png "fakes_init.png"]
    ++ (ticks.map (fun t =>
        tickFileEvents image_snapshot_ticks network_snapshot_ticks numMetrics
          t.1 t.2.1 t.2.2)).flatten

/-- Is the event a PNG write? -/
def FileEvent.isPng : FileEvent → Bool
  | FileEvent.png _ => true
  | _ => false

/-- Is the event a network pickle write? -/
def FileEvent.isPkl : FileEvent → Bool
  | FileEvent.pkl _ => true
  | _ => false

/-- Is the event a metric evaluation? -/
def FileEvent.isMetricRun : FileEvent → Bool
  | FileEvent.metricRun _ => true
  | _ => false

/-! ## `save_image_grid` (`training_loop.py` lines 73-83) -/

/-- `np.rint`: round to nearest integer, ties to even. -/
def rintQ (q : ℚ) : ℤ :=
  if q - ⌊q⌋ < 1 / 2 then ⌊q⌋
  else if 1 / 2 < q - ⌊q⌋ then ⌊q⌋ + 1
  else if 2 ∣ ⌊q⌋ then ⌊q⌋ else ⌊q⌋ + 1

/-- `.clip(0, 255).astype(np.uint8)`: clamp to `[0, 255]` and cast; the
clamp makes the cast exact. -/
def clipToByte (z : ℤ) : ℕ := (min (max z 0) 255).toNat

/-- The per-pixel value map of `save_image_grid` (lines 77-78):
`images = (images - lo) * (255 / (hi - lo))` then
`np.rint(images).clip(0, 255).astype(np.uint8)`. -/
def gridTransformPixel (lo hi v : ℚ) : ℕ :=
  clipToByte (rintQ ((v - lo) * (255 / (hi - lo))))

/-- `{3: 'RGB', 1: 'L'}[C]` (line 83); any other channel count raises
`KeyError`, modelled by `none`. -/
def gridMode (C : ℕ) : Option String :=
  if C = 3 then some "RGB" else if C = 1 then some "L" else none

/-- The single image file written by `save_image_grid`. -/
structure OutImage where
  height : ℕ
  width : ℕ
  channels : ℕ
  mode : String
  pixel : ℕ → ℕ → ℕ → ℕ

/-- `save_image_grid(images, filename, drange, grid_size)` (lines 73-83)
on an input of `N = gw * gh` images of shape `(C, H, W)`, with the array
modelled as a function of indices: pixel map, then
`reshape(gh, gw, C, H, W)`, `transpose(0, 3, 1, 4, 2)`,
`reshape(gh * H, gw * W, C)`, then `PIL.Image.fromarray(..., mode).save`. -/
def save_image_grid (images : ℕ → ℕ → ℕ → ℕ → ℚ) (lo hi : ℚ)
    (gw gh C H W : ℕ) : Option OutImage :=
  let mapped : ℕ → ℕ → ℕ → ℕ → ℕ := fun n c h w =>
    gridTransformPixel lo hi (images n c h w)
  let r5 : ℕ → ℕ → ℕ → ℕ → ℕ → ℕ := fun a b c h w => mapped (a * gw + b) c h w
  let t5 : ℕ → ℕ → ℕ → ℕ → ℕ → ℕ := fun a h b w c => r5 a b c h w
  let out : ℕ → ℕ → ℕ → ℕ := fun y x c => t5 (y / H) (y % H) (x / W) (x % W) c
  (gridMode C).map (fun m =>
    { height := gh * H, width := gw * W, channels := C, mode := m, pixel := out })

/-! ## Helper lemmas about the shrink-script file system -/

theorem fsSave_keys (fs : FS) (p : String) (im : PILImage) :
    (fsSave fs p im).map Prod.fst = fs.map Prod.fst := by
  unfold fsSave
  rw [List.map_map]
  apply List.map_congr_left
  intro e _
  by_cases h : e.1 = p <;> simp [h]

theorem fsOpen_fsSave (fs : FS) (p q : String) (im : PILImage) :
    fsOpen (fsSave fs p im) q
      = (fsOpen fs q).map (fun old => if q = p then im else old) := by
  induction fs with
  | nil => rfl
  | cons e fs ih =>
    unfold fsOpen fsSave at *
    by_cases h1 : e.1 = p <;> by_cases h2 : e.1 = q <;>
      simp_all [List.find?_cons, h1, h2]

theorem shrinkStep_eq (folder : String) (w h : ℕ) (fs : FS) (file : String)
    (fs₂ : FS) (hstep : shrinkStep folder w h fs file = some fs₂) :
    ∃ im, fsOpen fs (new_file folder file) = some im ∧
      fs₂ = fsSave fs (new_file folder file) (im.resize w h) := by
  unfold shrinkStep at hstep
  rcases Option.map_eq_some'.mp hstep with ⟨im, him, heq⟩
  exact ⟨im, him, heq.symm⟩

theorem shrinkFolder_cons (folder : String) (w h : ℕ) (file : String)
    (rest : List String) (fs : FS) :
    shrinkFolder folder w h (file :: rest) fs
      = (shrinkStep folder w h fs file).bind (shrinkFolder folder w h rest) := by
  unfold shrinkFolder
  rw [List.foldlM_cons]
  cases shrinkStep folder w h fs file <;> rfl

theorem shrinkFolder_keys_frame (folder : String) (w h : ℕ) :
    ∀ (listing : List String) (fs fs' : FS),
      shrinkFolder folder w h listing fs = some fs' →
      fs'.map Prod.fst = fs.map Prod.fst ∧
      ∀ p : String, p ∉ listing.map (new_file folder) →
        fsOpen fs' p = fsOpen fs p := by
  intro listing
  induction listing with
  | nil =>
    intro fs fs' hrun
    simp only [shrinkFolder, List.foldlM_nil, Option.pure_def, Option.some_inj] at hrun
    subst hrun
    exact ⟨rfl, fun p _ => rfl⟩
  | cons file rest ih =>
    intro fs fs' hrun
    rw [shrinkFolder_cons] at hrun
    rcases Option.bind_eq_some.mp hrun with ⟨fs₂, hstep, hrest⟩
    rcases shrinkStep_eq folder w h fs file fs₂ hstep with ⟨im, _him, heq⟩
    rcases ih fs₂ fs' hrest with ⟨hkeys, hframe⟩
    constructor
    · rw [hkeys, heq, fsSave_keys]
    · intro p hp
      simp only [List.map_cons, List.mem_cons, not_or] at hp
      rw [hframe p hp.2, heq, fsOpen_fsSave]
      simp [hp.1]

theorem shrinkFolder_preserves_resized (folder : String) (w h : ℕ) :
    ∀ (listing : List String) (fs fs' : FS) (p : String),
      shrinkFolder folder w h listing fs = some fs' →
      fsOpen fs p = some { width := w, height := h } →
      fsOpen fs' p = some { width := w, height := h } := by
  intro listing
  induction listing with
  | nil =>
    intro fs fs' p hrun hp
    simp only [shrinkFolder, List.foldlM_nil, Option.pure_def, Option.some_inj] at hrun
    subst hrun; exact hp
  | cons file rest ih =>
    intro fs fs' p hrun hp
    rw [shrinkFolder_cons] at hrun
    rcases Option.bind_eq_some.mp hrun with ⟨fs₂, hstep, hrest⟩
    rcases shrinkStep_eq folder w h fs file fs₂ hstep with ⟨im, _him, heq⟩
    apply ih fs₂ fs' p hrest
    rw [heq, fsOpen_fsSave, hp]
    by_cases hpq : p = new_file folder file <;> simp [hpq, PILImage.resize]

theorem shrinkFolder_writes_target (folder : String) (w h : ℕ) :
    ∀ (listing : List String) (fs fs' : FS) (file : String),
      shrinkFolder folder w h listing fs = some fs' →
      file ∈ listing →
      fsOpen fs' (new_file folder file) = some { width := w, height := h } := by
  intro listing
  induction listing with
  | nil => intro _ _ _ _ hmem; cases hmem
  | cons hd rest ih =>
    intro fs fs' file hrun hmem
    rw [shrinkFolder_cons] at hrun
    rcases Option.bind_eq_some.mp hrun with ⟨fs₂, hstep, hrest⟩
    rcases shrinkStep_eq folder w h fs hd fs₂ hstep with ⟨im, him, heq⟩
    rcases List.mem_cons.mp hmem with hfile | hfile
    · subst hfile
      apply shrinkFolder_preserves_resized folder w h rest fs₂ fs' _ hrest
      rw [heq, fsOpen_fsSave, him]
      simp [PILImage.resize]
    · exact ih fs₂ fs' file hrest hfile

/-! ## Claim theorems -/

/-- C1: every network snapshot written by `training_loop` is a pickled
6-tuple in the order (G, D, Gs, E, D_H, D_J), and resuming from such a
snapshot unpickles the tuple in the same order and copies each of the six
networks' variables into the corresponding freshly constructed network,
restoring exactly the weights that were saved. -/
theorem C1_checkpoint_roundtrip (saved fresh : Networks) :
    saveSnapshot saved
      = (saved.G, saved.D, saved.Gs, saved.E, saved.D_H, saved.D_J) ∧
    (resumeFrom fresh (saveSnapshot saved)).G.vars = saved.G.vars ∧
    (resumeFrom fresh (saveSnapshot saved)).D.vars = saved.D.vars ∧
    (resumeFrom fresh (saveSnapshot saved)).Gs.vars = saved.Gs.vars ∧
    (resumeFrom fresh (saveSnapshot saved)).E.vars = saved.E.vars ∧
    (resumeFrom fresh (saveSnapshot saved)).D_H.vars = saved.D_H.vars ∧
    (resumeFrom fresh (saveSnapshot saved)).D_J.vars = saved.D_J.vars := by
  refine ⟨rfl, ?_, ?_, ?_, ?_, ?_, ?_⟩ <;> rfl

/-- C3: the shrink script saves each resized image back to exactly the
path it was opened from (`folder ++ "\\" ++ file` for each listed file):
a successful run changes no file-system keys (every image is overwritten
in place, no file is created or deleted) and leaves every path outside
the listing untouched. -/
theorem C3_shrink_in_place (folder : String) (w h : ℕ) (listing : List String)
    (fs fs' : FS) (hrun : shrinkFolder folder w h listing fs = some fs') :
    fs'.map Prod.fst = fs.map Prod.fst ∧
    ∀ p : String, p ∉ listing.map (new_file folder) →
      fsOpen fs' p = fsOpen fs p :=
  shrinkFolder_keys_frame folder w h listing fs fs' hrun

/-- C3 witness: a concrete one-file run, overwriting in place. -/
theorem C3_shrink_in_place_witness :
    (shrinkFolder "d" 2 3 ["a"] [("d\\a", { width := 5, height := 7 })]
        = some [("d\\a", { width := 2, height := 3 })]) ∧
    (([("d\\a", { width := 2, height := 3 })] : FS).map Prod.fst
        = ([("d\\a", { width := 5, height := 7 })] : FS).map Prod.fst ∧
      ∀ p : String, p ∉ (["a"].map (new_file "d")) →
        fsOpen [("d\\a", { width := 2, height := 3 })] p
          = fsOpen [("d\\a", { width := 5, height := 7 })] p) :=
  ⟨by decide, C3_shrink_in_place "d" 2 3 ["a"] _ _ (by decide)⟩

/-- C4: every image file processed by the shrink script is written back
with exactly the interactively entered target dimensions (width `w`,
height `h`), whatever its original size was. -/
theorem C4_shrink_target_dims (folder : String) (w h : ℕ)
    (listing : List String) (fs fs' : FS)
    (hrun : shrinkFolder folder w h listing fs = some fs')
    (file : String) (hmem : file ∈ listing) (im : PILImage)
    (him : fsOpen fs' (new_file folder file) = some im) :
    im.width = w ∧ im.height = h := by
  have h2 := shrinkFolder_writes_target folder w h listing fs fs' file hrun hmem
  rw [him] at h2
  cases Option.some_inj.mp h2
  exact ⟨rfl, rfl⟩

/-- C4 witness: a concrete run; the 5×7 image comes back as 2×3. -/
theorem C4_shrink_target_dims_witness :
    PILImage.width { width := 2, height := 3 } = 2 ∧
    PILImage.height { width := 2, height := 3 } = 3 :=
  C4_shrink_target_dims "d" 2 3 ["a"] [("d\\a", { width := 5, height := 7 })]
    [("d\\a", { width := 2, height := 3 })] (by decide) "a" (by decide)
    { width := 2, height := 3 } (by decide)

/-- C5 counterexample: with `num_gpus = 0` and `minibatch_gpu = 1`,
`minibatch_size = 5` is not divisible by `num_gpus * minibatch_gpu = 0`,
yet line 121 raises `ZeroDivisionError` (Python `%` with zero divisor),
not `AssertionError`, refuting the claimed "if and only if". -/
theorem C5_assert_counterexample :
    ¬ ((0 * 1 : ℕ) ∣ 5) ∧
    (trainingLoopPrefix 5 0 1).2 = some PyError.zeroDivisionError ∧
    (trainingLoopPrefix 5 0 1).2 ≠ some PyError.assertionError := by
  refine ⟨by decide, by decide, by decide⟩

/-- C5 (amended): provided `num_gpus * minibatch_gpu` is positive,
`training_loop` raises `AssertionError` if and only if `minibatch_size`
is not divisible by `num_gpus * minibatch_gpu`, and any such failure
happens before the dataset is loaded, any network is constructed or any
file is written, leaving no state change. -/
theorem C5_assert_before_effects (mb ng mg : ℕ) (hpos : 0 < ng * mg) :
    ((trainingLoopPrefix mb ng mg).2 = some PyError.assertionError ↔
      ¬ (ng * mg ∣ mb)) ∧
    ((trainingLoopPrefix mb ng mg).2.isSome → (trainingLoopPrefix mb ng mg).1 = []) := by
  have hne : ng * mg ≠ 0 := Nat.pos_iff_ne_zero.mp hpos
  have hdvd : ng * mg ∣ mb ↔ mb % (ng * mg) = 0 := Nat.dvd_iff_mod_eq_zero
  unfold trainingLoopPrefix
  rw [if_neg hne]
  by_cases hmod : mb % (ng * mg) = 0
  · rw [if_pos hmod]
    exact ⟨by simp [hdvd, hmod], by intro hsome; simp at hsome⟩
  · rw [if_neg hmod]
    exact ⟨by simp [hdvd, hmod], fun _ => rfl⟩

/-- C5 witness: `minibatch_size = 5`, `num_gpus = 1`, `minibatch_gpu = 2`. -/
theorem C5_assert_before_effects_witness :
    (0 : ℕ) < 1 * 2 ∧
    (((trainingLoopPrefix 5 1 2).2 = some PyError.assertionError ↔
        ¬ ((1 * 2 : ℕ) ∣ 5)) ∧
      ((trainingLoopPrefix 5 1 2).2.isSome → (trainingLoopPrefix 5 1 2).1 = [])) :=
  ⟨by decide, C5_assert_before_effects 5 1 2 (by decide)⟩

/-! ## Helper lemmas about loop progress -/

theorem innerRepeat_cur_nimg (mb : ℕ) (s : LoopState) :
    (innerRepeat mb s).cur_nimg = s.cur_nimg + mb := rfl

theorem whilePass_cur_nimg (mb rep : ℕ) (s : LoopState) :
    (whilePass mb rep s).cur_nimg = s.cur_nimg + mb * rep := by
  unfold whilePass
  induction rep generalizing s with
  | zero => simp
  | succ n ih =>
    rw [List.range_succ, List.foldl_append]
    simp only [List.foldl_cons, List.foldl_nil, innerRepeat_cur_nimg]
    rw [ih]
    ring

theorem stateAfter_cur_nimg (mb rep k : ℕ) :
    (stateAfter mb rep k).cur_nimg = k * (mb * rep) := by
  unfold stateAfter
  induction k with
  | zero => simp
  | succ n ih =>
    rw [List.range_succ, List.foldl_append]
    simp only [List.foldl_cons, List.foldl_nil]
    rw [whilePass_cur_nimg]
    unfold stateAfter at ih
    rw [ih]
    ring

theorem le_ceil_div_mul (T m : ℕ) (hm : 1 ≤ m) : T ≤ ((T + m - 1) / m) * m := by
  rcases Nat.eq_zero_or_pos T with hT | hT
  · simp [hT]
  · obtain ⟨S, rfl⟩ : ∃ S, T = S + 1 := ⟨T - 1, by omega⟩
    have h1 : S + 1 + m - 1 = S + m := by omega
    rw [h1, Nat.add_div_right _ hm]
    have h2 := Nat.div_add_mod S m
    have h3 : S % m < m := Nat.mod_lt _ hm
    have h4 : (S / m + 1) * m = m * (S / m) + m := by ring
    rw [h4]
    omega

/-- C8: every pass of the while loop increases `cur_nimg` by exactly
`minibatch_size * minibatch_repeats`; with a positive minibatch size and
repeat count the `done` condition therefore holds after at most
`ceil(total_kimg * 1000 / (minibatch_size * minibatch_repeats))` passes,
for any abort callback; and with `minibatch_size = 0` the divisibility
assertion still passes while `cur_nimg` never increases. -/
theorem C8_loop_terminates (mb rep total : ℕ) (abort : Option (ℕ → Bool)) :
    (∀ k : ℕ, (stateAfter mb rep (k + 1)).cur_nimg
        = (stateAfter mb rep k).cur_nimg + mb * rep) ∧
    (1 ≤ mb → 1 ≤ rep →
      doneAfter mb rep total abort
        ((total * 1000 + mb * rep - 1) / (mb * rep)) = true) ∧
    (mb = 0 → ∀ ng mg : ℕ,
      (trainingLoopPrefix mb ng mg).2 ≠ some PyError.assertionError ∧
      ∀ k : ℕ, (stateAfter mb rep k).cur_nimg = 0) := by
  refine ⟨?_, ?_, ?_⟩
  · intro k
    rw [stateAfter_cur_nimg, stateAfter_cur_nimg]
    ring
  · intro hmb hrep
    have hm : 1 ≤ mb * rep := Nat.one_le_iff_ne_zero.mpr (by positivity)
    unfold doneAfter
    rw [stateAfter_cur_nimg]
    have hbound := le_ceil_div_mul (total * 1000) (mb * rep) hm
    simp [Bool.or_eq_true, decide_eq_true_eq]
    left
    exact hbound
  · intro hmb ng mg
    subst hmb
    constructor
    · unfold trainingLoopPrefix
      by_cases h : ng * mg = 0
      · simp [h]
      · simp [h, Nat.zero_mod]
    · intro k
      rw [stateAfter_cur_nimg]
      ring

/-- C8 witness: `minibatch_size = 32`, `minibatch_repeats = 4`,
`total_kimg = 1`, no abort callback: done after `ceil(1000/128) = 8`
passes; and with `minibatch_size = 0`, `cur_nimg` is still 0 after 5
passes. -/
theorem C8_loop_terminates_witness :
    (doneAfter 32 4 1 none ((1 * 1000 + 32 * 4 - 1) / (32 * 4)) = true) ∧
    ((trainingLoopPrefix 0 1 4).2 ≠ some PyError.assertionError ∧
      ∀ k : ℕ, (stateAfter 0 4 k).cur_nimg = 0) :=
  ⟨(C8_loop_terminates 32 4 1 none).2.1 (by decide) (by decide),
    ((C8_loop_terminates 0 4 1 none).2.2 rfl 1 4).1,
    ((C8_loop_terminates 0 4 1 none).2.2 rfl 1 4).2⟩

/-! ## Helper lemmas about the op schedule -/

theorem count_Gs_flatten_replicate (n : ℕ) (chunk : List (List Op))
    (hc : chunk.flatten.count Op.Gs_update = 0) :
    ((List.replicate n chunk).flatten).flatten.count Op.Gs_update = 0 := by
  induction n with
  | zero => simp
  | succ k ih =>
    rw [List.replicate_succ, List.flatten_cons, List.flatten_append,
      List.count_append, hc, ih]

/-- C2: every minibatch iteration runs its ops in a fixed alternating
order: the joint G-and-E optimizer step, then the G regularization step
when due, then the discriminator step together with the Gs
moving-average update, then the D regularization step when due; on the
slow gradient-accumulation path the same order holds per round except
that the single Gs update happens after all G rounds and before the D
rounds.  In both cases the iteration performs exactly one Gs update. -/
theorem C2_training_op_order (mb mg ng : ℕ) (rG rD : Bool) :
    (numRounds mb (mg * ng) = 1 →
      iterationRuns mb mg ng rG rD =
        [[Op.G_train, Op.data_fetch]]
          ++ (if rG then [[Op.G_reg]] else [])
          ++ [[Op.D_train, Op.Gs_update]]
          ++ (if rD then [[Op.D_reg]] else [])) ∧
    (numRounds mb (mg * ng) ≠ 1 →
      iterationRuns mb mg ng rG rD =
        (List.replicate (numRounds mb (mg * ng))
            ([[Op.G_train]] ++ (if rG then [[Op.G_reg]] else []))).flatten
          ++ [[Op.Gs_update]]
          ++ (List.replicate (numRounds mb (mg * ng))
            ([[Op.data_fetch]] ++ [[Op.D_train]]
              ++ (if rD then [[Op.D_reg]] else []))).flatten) ∧
    ((iterationRuns mb mg ng rG rD).flatten.count Op.Gs_update = 1) := by
  refine ⟨?_, ?_, ?_⟩
  · intro hn
    unfold iterationRuns
    rw [if_pos hn]
    rfl
  · intro hn
    unfold iterationRuns
    rw [if_neg hn]
    rfl
  · unfold iterationRuns
    by_cases hn : numRounds mb (mg * ng) = 1
    · rw [if_pos hn]
      cases rG <;> cases rD <;> decide
    · rw [if_neg hn]
      unfold slowPath
      have hG : ([[Op.G_train]]
          ++ (if rG then [[Op.G_reg]] else [])).flatten.count Op.Gs_update = 0 := by
        cases rG <;> decide
      have hD : ([[Op.data_fetch]] ++ [[Op.D_train]]
          ++ (if rD then [[Op.D_reg]] else [])).flatten.count Op.Gs_update = 0 := by
        cases rD <;> decide
      rw [List.flatten_append, List.flatten_append, List.count_append,
        List.count_append,
        count_Gs_flatten_replicate _ _ hG, count_Gs_flatten_replicate _ _ hD]
      rfl

/-- C2 witness: a fast-path iteration (one round: 4 = 4·1 samples per
run) and a slow-path iteration (two rounds: 8 = 2·(4·1)), with both
regularizers due. -/
theorem C2_training_op_order_witness :
    (iterationRuns 4 4 1 true true =
      [[Op.G_train, Op.data_fetch]] ++ [[Op.G_reg]]
        ++ [[Op.D_train, Op.Gs_update]] ++ [[Op.D_reg]]) ∧
    (iterationRuns 8 4 1 true true =
      (List.replicate 2 ([[Op.G_train]] ++ [[Op.G_reg]])).flatten
        ++ [[Op.Gs_update]]
        ++ (List.replicate 2
            ([[Op.data_fetch]] ++ [[Op.D_train]] ++ [[Op.D_reg]])).flatten) :=
  ⟨(C2_training_op_order 4 4 1 true true).1 (by decide),
    (C2_training_op_order 8 4 1 true true).2.1 (by decide)⟩

/-- C6: every minibatch iteration applies exactly one moving-average
update to Gs, with coefficient
`Gs_beta = 0.5 ** (minibatch_size / max(Gs_nimg, 1e-8))` where
`Gs_nimg = G_smoothing_kimg * 1000` (capped by the rampup when enabled);
hence with rampup disabled a weight contribution decays by one half
after `G_smoothing_kimg` thousand images, i.e. after
`Gs_nimg / minibatch_size` updates. -/
theorem C6_ema_half_life (mb mg ng : ℕ) (rG rD : Bool) (kimg cur : ℝ)
    (hk : (1e-8 : ℝ) ≤ kimg * 1000) (hmb : 0 < (mb : ℝ)) :
    ((iterationRuns mb mg ng rG rD).flatten.count Op.Gs_update = 1) ∧
    Gs_beta (mb : ℝ) kimg none cur
      = (0.5 : ℝ) ^ ((mb : ℝ) / max (kimg * 1000) (1e-8 : ℝ)) ∧
    (Gs_beta (mb : ℝ) kimg none cur) ^ ((kimg * 1000) / (mb : ℝ))
      = (0.5 : ℝ) := by
  refine ⟨?_, rfl, ?_⟩
  · unfold iterationRuns
    by_cases hn : numRounds mb (mg * ng) = 1
    · rw [if_pos hn]
      cases rG <;> cases rD <;> decide
    · rw [if_neg hn]
      unfold slowPath
      have hG : ([[Op.G_train]]
          ++ (if rG then [[Op.G_reg]] else [])).flatten.count Op.Gs_update = 0 := by
        cases rG <;> decide
      have hD : ([[Op.data_fetch]] ++ [[Op.D_train]]
          ++ (if rD then [[Op.D_reg]] else [])).flatten.count Op.Gs_update = 0 := by
        cases rD <;> decide
      rw [List.flatten_append, List.flatten_append, List.count_append,
        List.count_append,
        count_Gs_flatten_replicate _ _ hG, count_Gs_flatten_replicate _ _ hD]
      rfl
  · have hN : (0 : ℝ) < kimg * 1000 := lt_of_lt_of_le (by norm_num) hk
    unfold Gs_beta Gs_nimg
    rw [max_eq_left hk, ← Real.rpow_mul (by norm_num : (0 : ℝ) ≤ 0.5)]
    have hone : (mb : ℝ) / (kimg * 1000) * (kimg * 1000 / (mb : ℝ)) = 1 := by
      field_simp
    rw [hone, Real.rpow_one]

/-- C6 witness: `minibatch_size = 32`, `G_smoothing_kimg = 10`, fast
path with both regularizers due. -/
theorem C6_ema_half_life_witness :
    ((iterationRuns 32 4 1 true true).flatten.count Op.Gs_update = 1) ∧
    Gs_beta ((32 : ℕ) : ℝ) 10 none 0
      = (0.5 : ℝ) ^ (((32 : ℕ) : ℝ) / max ((10 : ℝ) * 1000) (1e-8 : ℝ)) ∧
    (Gs_beta ((32 : ℕ) : ℝ) 10 none 0) ^ (((10 : ℝ) * 1000) / ((32 : ℕ) : ℝ))
      = (0.5 : ℝ) :=
  C6_ema_half_life 32 4 1 true true 10 0 (by norm_num) (by norm_num)

/-- C7: `save_image_grid` maps pixel values affinely from the drange
`[lo, hi]` onto `[0, 255]` (value `v` becomes
`round((v - lo) * 255 / (hi - lo))` clipped to `[0, 255]` as an unsigned
byte) and, for `gw * gh` images of shape `(C, H, W)` with `C` equal to 3
or 1 and `lo ≠ hi`, writes a single image file of height `gh * H`, width
`gw * W` and `C` channels. -/
theorem C7_save_image_grid_shape (images : ℕ → ℕ → ℕ → ℕ → ℚ) (lo hi : ℚ)
    (gw gh C H W : ℕ) (hC : C = 3 ∨ C = 1) (_hlo : lo ≠ hi) :
    ∃ out : OutImage,
      save_image_grid images lo hi gw gh C H W = some out ∧
      out.height = gh * H ∧ out.width = gw * W ∧ out.channels = C ∧
      (∀ v : ℚ, gridTransformPixel lo hi v
          = (min (max (rintQ ((v - lo) * 255 / (hi - lo))) 0) 255).toNat) ∧
      (∀ v : ℚ, gridTransformPixel lo hi v ≤ 255) := by
  have hform : ∀ v : ℚ, gridTransformPixel lo hi v
      = (min (max (rintQ ((v - lo) * 255 / (hi - lo))) 0) 255).toNat := by
    intro v
    unfold gridTransformPixel clipToByte
    congr 3
    rw [mul_div_assoc]
  have hbound : ∀ v : ℚ, gridTransformPixel lo hi v ≤ 255 := by
    intro v
    unfold gridTransformPixel clipToByte
    rw [Int.toNat_le]
    exact le_trans (min_le_right _ _) (by norm_num)
  rcases hC with hC | hC <;> subst hC <;>
    exact ⟨_, rfl, rfl, rfl, rfl, hform, hbound⟩

/-- C7 witness: a 2×3 grid of 3-channel 4×5 images over drange
`[0, 255]`. -/
theorem C7_save_image_grid_shape_witness :
    ∃ out : OutImage,
      save_image_grid (fun _ _ _ _ => 0) 0 255 2 3 3 4 5 = some out ∧
      out.height = 3 * 4 ∧ out.width = 2 * 5 ∧ out.channels = 3 ∧
      (∀ v : ℚ, gridTransformPixel 0 255 v
          = (min (max (rintQ ((v - 0) * 255 / (255 - 0))) 0) 255).toNat) ∧
      (∀ v : ℚ, gridTransformPixel 0 255 v ≤ 255) :=
  C7_save_image_grid_shape (fun _ _ _ _ => 0) 0 255 2 3 3 4 5 (Or.inl rfl)
    (by norm_num)

/-! ## Helper lemmas about tick file events -/

theorem tick_filter_png_none (netT : Option ℕ) (nm : ℕ) (d : Bool)
    (ct cn : ℕ) :
    (tickFileEvents none netT nm d ct cn).filter FileEvent.isPng = [] := by
  unfold tickFileEvents
  cases netT with
  | none => rfl
  | some iv =>
    simp only [List.nil_append]
    by_cases hc : (d || ct % iv == 0) = true
    · rw [if_pos hc]
      simp [List.filter_cons, FileEvent.isPng, List.filter_replicate]
    · rw [if_neg hc]
      rfl

theorem tick_filter_pkl_none (imgT : Option ℕ) (nm : ℕ) (d : Bool)
    (ct cn : ℕ) :
    (tickFileEvents imgT none nm d ct cn).filter FileEvent.isPkl = [] := by
  unfold tickFileEvents
  cases imgT with
  | none => rfl
  | some iv =>
    simp only [List.append_nil]
    by_cases hc : (d || ct % iv == 0) = true
    · rw [if_pos hc]; rfl
    · rw [if_neg hc]; rfl

theorem tick_filter_metric_none (imgT : Option ℕ) (nm : ℕ) (d : Bool)
    (ct cn : ℕ) :
    (tickFileEvents imgT none nm d ct cn).filter FileEvent.isMetricRun = [] := by
  unfold tickFileEvents
  cases imgT with
  | none => rfl
  | some iv =>
    simp only [List.append_nil]
    by_cases hc : (d || ct % iv == 0) = true
    · rw [if_pos hc]; rfl
    · rw [if_neg hc]; rfl

/-- C9: with `image_snapshot_ticks = None` the only PNG files
`training_loop` writes are `reals.png` and `fakes_init.png` (no periodic
fakes grid, not even at the final tick); with
`network_snapshot_ticks = None` no network pickle is written at all and
consequently no metric is ever evaluated. -/
theorem C9_none_ticks_write_nothing (imgT netT : Option ℕ) (nm : ℕ)
    (ticks : List (Bool × ℕ × ℕ)) :
    (imgT = none →
      (trainingFileEvents imgT netT nm ticks).filter FileEvent.isPng
        = [FileEvent.png "reals.png", FileEvent.png "fakes_init.png"]) ∧
    (netT = none →
      (trainingFileEvents imgT netT nm ticks).filter FileEvent.isPkl = [] ∧
      (trainingFileEvents imgT netT nm ticks).filter FileEvent.isMetricRun
        = []) := by
  constructor
  · rintro rfl
    unfold trainingFileEvents
    rw [List.filter_append]
    have h2 : ((ticks.map (fun t =>
        tickFileEvents none netT nm t.1 t.2.1 t.2.2)).flatten).filter
          FileEvent.isPng = [] := by
      induction ticks with
      | nil => rfl
      | cons t ts ih =>
        rw [List.map_cons, List.flatten_cons, List.filter_append, ih,
          tick_filter_png_none]
        rfl
    rw [h2]
    rfl
  · rintro rfl
    unfold trainingFileEvents
    constructor
    · rw [List.filter_append]
      have h2 : ((ticks.map (fun t =>
          tickFileEvents imgT none nm t.1 t.2.1 t.2.2)).flatten).filter
            FileEvent.isPkl = [] := by
        induction ticks with
        | nil => rfl
        | cons t ts ih =>
          rw [List.map_cons, List.flatten_cons, List.filter_append, ih,
            tick_filter_pkl_none]
          rfl
      rw [h2]
      rfl
    · rw [List.filter_append]
      have h2 : ((ticks.map (fun t =>
          tickFileEvents imgT none nm t.1 t.2.1 t.2.2)).flatten).filter
            FileEvent.isMetricRun = [] := by
        induction ticks with
        | nil => rfl
        | cons t ts ih =>
          rw [List.map_cons, List.flatten_cons, List.filter_append, ih,
            tick_filter_metric_none]
          rfl
      rw [h2]
      rfl

/-- C9 witness: three ticks (the last one final), two metrics, with both
snapshot intervals `None`: only the two setup PNGs appear and no pickle
or metric run occurs. -/
theorem C9_none_ticks_write_nothing_witness :
    ((trainingFileEvents none none 2 [(false, 0, 0), (false, 1, 4000),
        (true, 2, 5000)]).filter FileEvent.isPng
      = [FileEvent.png "reals.png", FileEvent.png "fakes_init.png"]) ∧
    ((trainingFileEvents none none 2 [(false, 0, 0), (false, 1, 4000),
        (true, 2, 5000)]).filter FileEvent.isPkl = [] ∧
      (trainingFileEvents none none 2 [(false, 0, 0), (false, 1, 4000),
        (true, 2, 5000)]).filter FileEvent.isMetricRun = []) :=
  ⟨(C9_none_ticks_write_nothing none none 2 _).1 rfl,
    (C9_none_ticks_write_nothing none none 2 _).2 rfl⟩

/-- C10: with lazy regularization on, both optimizer argument
dictionaries are rescaled with `mb_ratio = reg_interval/(reg_interval+1)`
(learning rate multiplied, `beta1`/`beta2` raised to the power when
present), the standalone regularization ops run exactly on iterations
where the running minibatch counter is `0` modulo the respective
interval (so both run on the very first iteration), and the interval-
scaled regularization terms are registered with the standalone
optimizers; with lazy regularization off, the hyperparameters are left
unchanged, the regularization terms are folded into the main losses, and
the standalone ops never run. -/
theorem C10_lazy_regularization (mb ng mg Gint Dint counter : ℕ)
    (gArgs dArgs : OptArgs) (terms : LossTerms)
    (_hG : 0 < Gint) (_hD : 0 < Dint) :
    (rescaleOptArgs true mb ng mg Gint gArgs =
      { learning_rate := gArgs.learning_rate * ((Gint : ℝ) / ((Gint : ℝ) + 1))
        beta1 := gArgs.beta1.map (fun b => b ^ ((Gint : ℝ) / ((Gint : ℝ) + 1)))
        beta2 := gArgs.beta2.map (fun b => b ^ ((Gint : ℝ) / ((Gint : ℝ) + 1)))
        minibatch_multiplier := some (mb / ng / mg) }) ∧
    (rescaleOptArgs true mb ng mg Dint dArgs =
      { learning_rate := dArgs.learning_rate * ((Dint : ℝ) / ((Dint : ℝ) + 1))
        beta1 := dArgs.beta1.map (fun b => b ^ ((Dint : ℝ) / ((Dint : ℝ) + 1)))
        beta2 := dArgs.beta2.map (fun b => b ^ ((Dint : ℝ) / ((Dint : ℝ) + 1)))
        minibatch_multiplier := some (mb / ng / mg) }) ∧
    (run_G_reg true counter Gint = true ↔ counter % Gint = 0) ∧
    (run_D_reg true counter Dint = true ↔ counter % Dint = 0) ∧
    (run_G_reg true 0 Gint = true ∧ run_D_reg true 0 Dint = true) ∧
    (registerGradients true Gint Dint terms =
      { regG := terms.G_reg.map (fun r => r * (Gint : ℝ))
        regD := terms.D_reg.map (fun r => r * (Dint : ℝ))
        mainG_E := terms.G_E_loss
        mainD := terms.D_loss }) ∧
    (rescaleOptArgs false mb ng mg Gint gArgs
      = { gArgs with minibatch_multiplier := some (mb / ng / mg) }) ∧
    (rescaleOptArgs false mb ng mg Dint dArgs
      = { dArgs with minibatch_multiplier := some (mb / ng / mg) }) ∧
    (run_G_reg false counter Gint = false ∧
      run_D_reg false counter Dint = false) ∧
    (registerGradients false Gint Dint terms =
      { regG := none
        regD := none
        mainG_E := terms.G_E_loss + terms.G_reg.getD 0 + terms.E_reg.getD 0
        mainD := terms.D_loss + terms.D_reg.getD 0 }) := by
  refine ⟨rfl, rfl, ?_, ?_, ?_, rfl, rfl, rfl, ⟨rfl, rfl⟩, rfl⟩
  · simp [run_G_reg]
  · simp [run_D_reg]
  · exact ⟨by simp [run_G_reg], by simp [run_D_reg]⟩

/-- C10 witness: the default configuration `G_reg_interval = 4`,
`D_reg_interval = 16`, counter 3, Adam arguments with `beta2` present. -/
theorem C10_lazy_regularization_witness :
    (0 : ℕ) < 4 ∧ (0 : ℕ) < 16 ∧
    (run_G_reg true 3 4 = true ↔ 3 % 4 = 0) ∧
    (run_G_reg true 0 4 = true ∧ run_D_reg true 0 16 = true) ∧
    (run_G_reg false 3 4 = false ∧ run_D_reg false 3 16 = false) :=
  have h := C10_lazy_regularization 32 1 4 4 16 3
    { learning_rate := 1, beta1 := none, beta2 := some 1,
      minibatch_multiplier := none }
    { learning_rate := 1, beta1 := none, beta2 := some 1,
      minibatch_multiplier := none }
    { G_E_loss := 0, D_loss := 0, G_reg := none, D_reg := none,
      E_reg := none }
    (by decide) (by decide)
  ⟨by decide, by decide, h.2.2.1, h.2.2.2.2.1, h.2.2.2.2.2.2.2.2.1⟩

end StyleGanBiGan
